import Mathlib

/-!
# Response decoding layer of braintree-go (`response.go`)

A shallow embedding of `response.go`: the typed decode accessors, the
polymorphic `paymentMethod` dispatcher, the body normaliser `unpackBody`
and the error classifier `apiError`.

The Go standard library and the `xmlnil` package are collaborators of the
file, not part of it.  Their behaviour is a parameter of the embedding
(`Lib`): every theorem below holds whatever `encoding/xml`, `compress/gzip`,
the transport stream and `xmlnil.StripNilElements` compute.
-/

namespace Braintree

/-- A Go byte slice `[]byte`; `nil` and the empty slice are both `[]`. -/
abbrev Bytes := List UInt8

/-- The collaborators of `response.go`: the decode targets declared in other
files of the package, and the library functions the file calls. Each
`xml...` field is `xml.Unmarshal(r.Body, &b)` at one target type: `.ok b`
when it returns a nil error and has populated `b`, `.error e` otherwise. -/
structure Lib where
  /-- error values produced by `encoding/xml`, `compress/gzip`, `io`, `xmlnil` -/
  Err : Type
  /-- state of the transport body, an `io.ReadCloser` -/
  Stream : Type
  /-- state of a `*gzip.Reader` -/
  GzipReader : Type
  MerchantAccount : Type
  Transaction : Type
  TransactionLineItems : Type
  PaymentMethodNonce : Type
  CreditCard : Type
  PayPalAccount : Type
  VenmoAccount : Type
  AndroidPayCard : Type
  ApplePayCard : Type
  Customer : Type
  Subscription : Type
  SettlementBatchSummary : Type
  Address : Type
  AddOn : Type
  Discount : Type
  Dispute : Type
  DisputeEvidence : Type
  /-- the exported fields of `BraintreeError` other than `ErrorMessage` -/
  BraintreeErrorFields : Type
  /-- decode into `struct { XMLName xml.Name }`, giving `XMLName.Local` -/
  xmlName : Bytes → Except Err String
  xmlMerchantAccount : Bytes → Except Err MerchantAccount
  xmlTransaction : Bytes → Except Err Transaction
  xmlTransactionLineItems : Bytes → Except Err TransactionLineItems
  xmlPaymentMethodNonce : Bytes → Except Err PaymentMethodNonce
  xmlCreditCard : Bytes → Except Err CreditCard
  xmlPayPalAccount : Bytes → Except Err PayPalAccount
  xmlVenmoAccount : Bytes → Except Err VenmoAccount
  xmlAndroidPayCard : Bytes → Except Err AndroidPayCard
  xmlApplePayCard : Bytes → Except Err ApplePayCard
  xmlCustomer : Bytes → Except Err Customer
  xmlSubscription : Bytes → Except Err Subscription
  xmlSettlementBatchSummary : Bytes → Except Err SettlementBatchSummary
  xmlAddress : Bytes → Except Err Address
  /-- decode into `AddOnList`, giving its field `AddOns` -/
  xmlAddOnList : Bytes → Except Err (List AddOn)
  /-- decode into `DiscountList`, giving its field `Discounts` -/
  xmlDiscountList : Bytes → Except Err (List Discount)
  xmlDispute : Bytes → Except Err Dispute
  xmlDisputeEvidence : Bytes → Except Err DisputeEvidence
  /-- decode into `BraintreeError`: the message and the other exported fields -/
  xmlBraintreeError : Bytes → Except Err (String × BraintreeErrorFields)
  /-- the function `unicode.ToLower`, used by `strings.ToLower` outside ASCII -/
  unicodeToLower : Char → Char
  /-- the function `strconv.Quote` on a string that is not plain printable ASCII -/
  strconvQuote : String → String
  /-- the call `gzip.NewReader(body)`: reads the gzip header from the stream -/
  gzipNewReader : Stream → Except Err GzipReader × Stream
  /-- the call `ioutil.ReadAll(gzipReader)`: drains the stream through the decompressor -/
  gzipReadAll : GzipReader → Stream → Except Err Bytes × Stream
  /-- the call `ioutil.ReadAll(body)`: drains the stream -/
  readAll : Stream → Except Err Bytes × Stream
  /-- the call `body.Close()`; the error it returns is discarded by the caller -/
  close : Stream → Stream
  /-- the function `xmlnil.StripNilElements` -/
  StripNilElements : Bytes → Except Err Bytes

/-! ## Library functions with a fixed meaning -/

/-- The type `http.Header`, a `map[string][]string` kept as an association list. -/
abbrev Header := List (String × List String)

/-- The method `Header.Get(key)` for a key already in canonical form, as
`"Content-Encoding"` is: the first value stored under the key, `""` when the
key is absent or has no value. -/
def Header.Get (h : Header) (key : String) : String :=
  match h.lookup key with
  | some (v :: _) => v
  | _ => ""

/-- Lower-casing of one ASCII byte, the loop body of the fast path of
`strings.ToLower`. -/
def asciiToLower (c : Char) : Char :=
  if 65 ≤ c.toNat ∧ c.toNat ≤ 90 then Char.ofNat (c.toNat + 32) else c

/-- The function `strings.ToLower`: byte-wise on an all-ASCII string, `unicode.ToLower`
rune by rune otherwise. -/
def ToLower (L : Lib) (s : String) : String :=
  if s.data.all (fun c => decide (c.toNat < 128)) then
    String.mk (s.data.map asciiToLower)
  else
    String.mk (s.data.map L.unicodeToLower)

/-- One rune of `strconv.Quote` on printable ASCII: the double quote and the
backslash get a backslash in front, every other rune stands for itself. -/
def quoteRune (c : Char) : List Char :=
  if c.toNat = 34 ∨ c.toNat = 92 then [Char.ofNat 92, c] else [c]

/-- The verb `%#v` of `fmt` on a string, which is `strconv.Quote`: the string
between double quotes, escaped. -/
def Quote (L : Lib) (s : String) : String :=
  if s.data.all (fun c => decide (32 ≤ c.toNat ∧ c.toNat ≤ 126)) then
    String.mk ([Char.ofNat 34] ++ s.data.flatMap quoteRune ++ [Char.ofNat 34])
  else
    L.strconvQuote s

/-- The function `http.StatusText`: the reason phrase of a status code, `""` for a code
that has none. -/
def StatusText (code : Int) : String :=
  match code with
  | 100 => "Continue"
  | 101 => "Switching Protocols"
  | 102 => "Processing"
  | 103 => "Early Hints"
  | 200 => "OK"
  | 201 => "Created"
  | 202 => "Accepted"
  | 203 => "Non-Authoritative Information"
  | 204 => "No Content"
  | 205 => "Reset Content"
  | 206 => "Partial Content"
  | 207 => "Multi-Status"
  | 208 => "Already Reported"
  | 226 => "IM Used"
  | 300 => "Multiple Choices"
  | 301 => "Moved Permanently"
  | 302 => "Found"
  | 303 => "See Other"
  | 304 => "Not Modified"
  | 305 => "Use Proxy"
  | 307 => "Temporary Redirect"
  | 308 => "Permanent Redirect"
  | 400 => "Bad Request"
  | 401 => "Unauthorized"
  | 402 => "Payment Required"
  | 403 => "Forbidden"
  | 404 => "Not Found"
  | 405 => "Method Not Allowed"
  | 406 => "Not Acceptable"
  | 407 => "Proxy Authentication Required"
  | 408 => "Request Timeout"
  | 409 => "Conflict"
  | 410 => "Gone"
  | 411 => "Length Required"
  | 412 => "Precondition Failed"
  | 413 => "Request Entity Too Large"
  | 414 => "Request URI Too Long"
  | 415 => "Unsupported Media Type"
  | 416 => "Requested Range Not Satisfiable"
  | 417 => "Expectation Failed"
  | 418 => "I\x27m a teapot"
  | 421 => "Misdirected Request"
  | 422 => "Unprocessable Entity"
  | 423 => "Locked"
  | 424 => "Failed Dependency"
  | 425 => "Too Early"
  | 426 => "Upgrade Required"
  | 428 => "Precondition Required"
  | 429 => "Too Many Requests"
  | 431 => "Request Header Fields Too Large"
  | 451 => "Unavailable For Legal Reasons"
  | 500 => "Internal Server Error"
  | 501 => "Not Implemented"
  | 502 => "Bad Gateway"
  | 503 => "Service Unavailable"
  | 504 => "Gateway Timeout"
  | 505 => "HTTP Version Not Supported"
  | 506 => "Variant Also Negotiates"
  | 507 => "Insufficient Storage"
  | 508 => "Loop Detected"
  | 510 => "Not Extended"
  | 511 => "Network Authentication Required"
  | _ => ""

/-! ## Data model -/

/-- A call issued on the transport body `r.Response.Body`. -/
inductive StreamCall where
  /-- the call `gzip.NewReader(body)` -/
  | gzipNewReader
  /-- the call `ioutil.ReadAll` of the body, directly or through the gzip reader -/
  | readAll
  /-- the call `body.Close()` -/
  | close
  deriving DecidableEq, Repr

/-- The transport body: the state of the stream and the calls made on it so
far, oldest first. -/
structure ReadCloser (L : Lib) where
  state : L.Stream
  calls : List StreamCall

/-- The fields of `http.Response` that `response.go` reads. -/
structure HttpResponse (L : Lib) where
  StatusCode : Int
  Header : Header
  Body : ReadCloser L

/-- The envelope `Response`: the embedded `*http.Response` (the field
`r.Response` of the source) and the canonical buffer `Body`. -/
structure Response (L : Lib) where
  httpResponse : HttpResponse L
  Body : Bytes

/-- The promoted field `r.StatusCode`. -/
def Response.StatusCode {L : Lib} (r : Response L) : Int :=
  r.httpResponse.StatusCode

/-- The type `BraintreeError`: the unexported `statusCode`, the message, and
the remaining exported fields. -/
structure BraintreeError (L : Lib) where
  statusCode : Int
  ErrorMessage : String
  fields : L.BraintreeErrorFields

/-- A non-nil value of the Go interface `error` as `response.go` produces it. -/
inductive Error (L : Lib) where
  /-- an error returned by a library call -/
  | lib (e : L.Err)
  /-- the result of `fmt.Errorf`, with its formatted message -/
  | errorf (msg : String)
  /-- a value of `type httpError int` -/
  | httpError (code : Int)
  /-- a `*BraintreeError` -/
  | braintree (b : BraintreeError L)

/-- A non-nil value of the interface `PaymentMethod`: the dynamic type and
the pointer it holds, `none` for a nil pointer of that type. -/
inductive PaymentMethod (L : Lib) where
  | creditCard (p : Option L.CreditCard)
  | paypalAccount (p : Option L.PayPalAccount)
  | venmoAccount (p : Option L.VenmoAccount)
  | androidPayCard (p : Option L.AndroidPayCard)
  | applePayCard (p : Option L.ApplePayCard)

/-! ## Decode accessors

A Go result `(v, err)` is a pair; `none` in either place is `nil`. -/

/-- The shape shared by the accessors that return a pointer:
`var b T; if err := xml.Unmarshal(r.Body, &b); err != nil { return nil, err }; return &b, nil`. -/
def decodePtr {L : Lib} {T : Type} (dec : Bytes → Except L.Err T) (body : Bytes) :
    Option T × Option (Error L) :=
  match dec body with
  | .error e => (none, some (.lib e))
  | .ok b => (some b, none)

/-- Embeds `Response.entityName`. -/
def entityName (L : Lib) (r : Response L) : String × Option (Error L) :=
  match L.xmlName r.Body with
  | .error e => ("", some (.lib e))
  | .ok name => (name, none)

/-- Embeds `Response.merchantAccount`. -/
def merchantAccount (L : Lib) (r : Response L) : Option L.MerchantAccount × Option (Error L) :=
  decodePtr L.xmlMerchantAccount r.Body

/-- Embeds `Response.transaction`. -/
def transaction (L : Lib) (r : Response L) : Option L.Transaction × Option (Error L) :=
  decodePtr L.xmlTransaction r.Body

/-- Embeds `Response.transactionLineItems`; the slice is `none` when nil. -/
def transactionLineItems (L : Lib) (r : Response L) :
    Option L.TransactionLineItems × Option (Error L) :=
  decodePtr L.xmlTransactionLineItems r.Body

/-- Embeds `Response.paymentMethodNonce`. -/
def paymentMethodNonce (L : Lib) (r : Response L) :
    Option L.PaymentMethodNonce × Option (Error L) :=
  decodePtr L.xmlPaymentMethodNonce r.Body

/-- Embeds `Response.creditCard`. -/
def creditCard (L : Lib) (r : Response L) : Option L.CreditCard × Option (Error L) :=
  decodePtr L.xmlCreditCard r.Body

/-- Embeds `Response.paypalAccount`. -/
def paypalAccount (L : Lib) (r : Response L) : Option L.PayPalAccount × Option (Error L) :=
  decodePtr L.xmlPayPalAccount r.Body

/-- Embeds `Response.venmoAccount`. -/
def venmoAccount (L : Lib) (r : Response L) : Option L.VenmoAccount × Option (Error L) :=
  decodePtr L.xmlVenmoAccount r.Body

/-- Embeds `Response.androidPayCard`. -/
def androidPayCard (L : Lib) (r : Response L) : Option L.AndroidPayCard × Option (Error L) :=
  decodePtr L.xmlAndroidPayCard r.Body

/-- Embeds `Response.applePayCard`. -/
def applePayCard (L : Lib) (r : Response L) : Option L.ApplePayCard × Option (Error L) :=
  decodePtr L.xmlApplePayCard r.Body

/-- Embeds `Response.customer`. -/
def customer (L : Lib) (r : Response L) : Option L.Customer × Option (Error L) :=
  decodePtr L.xmlCustomer r.Body

/-- Embeds `Response.subscription`. -/
def subscription (L : Lib) (r : Response L) : Option L.Subscription × Option (Error L) :=
  decodePtr L.xmlSubscription r.Body

/-- Embeds `Response.settlement`. -/
def settlement (L : Lib) (r : Response L) :
    Option L.SettlementBatchSummary × Option (Error L) :=
  decodePtr L.xmlSettlementBatchSummary r.Body

/-- Embeds `Response.address`. -/
def address (L : Lib) (r : Response L) : Option L.Address × Option (Error L) :=
  decodePtr L.xmlAddress r.Body

/-- Embeds `Response.addOns`: the field `AddOns` of the decoded list, the nil
slice `[]` on a decode error. -/
def addOns (L : Lib) (r : Response L) : List L.AddOn × Option (Error L) :=
  match L.xmlAddOnList r.Body with
  | .error e => ([], some (.lib e))
  | .ok b => (b, none)

/-- Embeds `Response.discounts`: the field `Discounts` of the decoded list,
the nil slice `[]` on a decode error. -/
def discounts (L : Lib) (r : Response L) : List L.Discount × Option (Error L) :=
  match L.xmlDiscountList r.Body with
  | .error e => ([], some (.lib e))
  | .ok b => (b, none)

/-- Embeds `Response.dispute`. -/
def dispute (L : Lib) (r : Response L) : Option L.Dispute × Option (Error L) :=
  decodePtr L.xmlDispute r.Body

/-- Embeds `Response.disputeEvidence`. -/
def disputeEvidence (L : Lib) (r : Response L) :
    Option L.DisputeEvidence × Option (Error L) :=
  decodePtr L.xmlDisputeEvidence r.Body

/-- Embeds `Response.paymentMethod`. `return r.creditCard()` converts the
pointer to the interface, so a matched arm always gives a non-nil interface
value, holding a nil pointer when the decode failed. -/
def paymentMethod (L : Lib) (r : Response L) : Option (PaymentMethod L) × Option (Error L) :=
  match entityName L r with
  | (_, some err) => (none, some err)
  | (name, none) =>
    if name = "credit-card" then
      (some (.creditCard (creditCard L r).1), (creditCard L r).2)
    else if name = "paypal-account" then
      (some (.paypalAccount (paypalAccount L r).1), (paypalAccount L r).2)
    else if name = "venmo-account" then
      (some (.venmoAccount (venmoAccount L r).1), (venmoAccount L r).2)
    else if name = "android-pay-card" then
      (some (.androidPayCard (androidPayCard L r).1), (androidPayCard L r).2)
    else if name = "apple-pay-card" then
      (some (.applePayCard (applePayCard L r).1), (applePayCard L r).2)
    else
      (none, some (.errorf ("Unrecognized payment method " ++ Quote L name)))

/-! ## Error classification -/

/-- Embeds `Response.apiError`; `none` is the nil error. -/
def apiError (L : Lib) (r : Response L) : Option (Error L) :=
  match L.xmlBraintreeError r.Body with
  | .ok (msg, fields) =>
    if msg ≠ "" then
      some (.braintree { statusCode := r.StatusCode, ErrorMessage := msg, fields := fields })
    else if r.StatusCode > 299 then some (.httpError r.StatusCode)
    else none
  | .error _ =>
    if r.StatusCode > 299 then some (.httpError r.StatusCode)
    else none

/-- Embeds `httpError.StatusCode`. -/
def httpError.StatusCode (e : Int) : Int := e

/-- The verb `%d` of `fmt` on an `int`. -/
def formatInt (n : Int) : String :=
  match n with
  | Int.ofNat m => Nat.repr m
  | Int.negSucc m => "-" ++ Nat.repr (m + 1)

/-- Embeds `httpError.Error`: `fmt.Sprintf("%s (%d)", http.StatusText(code), code)`. -/
def httpError.Error (e : Int) : String :=
  StatusText (httpError.StatusCode e) ++ " (" ++ formatInt (httpError.StatusCode e) ++ ")"

/-! ## Body normalisation -/

/-- The local variable `reader` of `unpackBody`: the transport body itself,
or the gzip reader wrapped around it. -/
inductive Reader (L : Lib) where
  | body
  | gzip (g : L.GzipReader)

/-- The call `ioutil.ReadAll(reader)`: the result and the state the transport stream
is left in. -/
def ReadAll (L : Lib) (reader : Reader L) (s : L.Stream) : Except L.Err Bytes × L.Stream :=
  match reader with
  | .body => L.readAll s
  | .gzip g => L.gzipReadAll g s

/-- Lines 190 to 199 of `unpackBody`: the choice of `reader` from the
`Content-Encoding` header. Gives the reader, or the error of
`gzip.NewReader`, and the transport body after the call. -/
def openReader (L : Lib) (r : Response L) : Except L.Err (Reader L) × ReadCloser L :=
  let body := r.httpResponse.Body
  let contentEncoding := ToLower L (r.httpResponse.Header.Get "Content-Encoding")
  if contentEncoding = "gzip" then
    match L.gzipNewReader body.state with
    | (.error err, s) => (.error err, { state := s, calls := body.calls ++ [.gzipNewReader] })
    | (.ok gzipReader, s) =>
      (.ok (.gzip gzipReader), { state := s, calls := body.calls ++ [.gzipNewReader] })
  else
    (.ok .body, body)

/-- Embeds `Response.unpackBody`: the error returned (`none` is nil) and the
envelope after the call. The deferred `r.Response.Body.Close()` is registered
after `gzip.NewReader` has returned, so it runs on the two exits below that
point and not on the exit above it. -/
def unpackBody (L : Lib) (r : Response L) : Option (Error L) × Response L :=
  if r.Body.length = 0 then
    match openReader L r with
    | (.error err, body) =>
      (some (.lib err), { r with httpResponse := { r.httpResponse with Body := body } })
    | (.ok reader, body) =>
      match ReadAll L reader body.state with
      | (.error err, s) =>
        (some (.lib err),
          { r with httpResponse := { r.httpResponse with
              Body := { state := L.close s, calls := body.calls ++ [.readAll, .close] } } })
      | (.ok buf, s) =>
        (none,
          { httpResponse := { r.httpResponse with
              Body := { state := L.close s, calls := body.calls ++ [.readAll, .close] } },
            Body :=
              match L.StripNilElements buf with
              | .ok strippedBuf => strippedBuf
              | .error _ => buf })
  else
    (none, r)

/-- The envelope after `n` calls of `unpackBody` in sequence. -/
def unpackBodyTimes (L : Lib) : Nat → Response L → Response L
  | 0, r => r
  | n + 1, r => unpackBodyTimes L n (unpackBody L r).2

/-! ## A small instance of the collaborators

Used to run the embedding on concrete envelopes. -/

/-- The bytes of an ASCII string. -/
def ascii (s : String) : Bytes := s.data.map (fun c => c.toNat.toUInt8)

/-- The text of a byte sequence, byte by byte. -/
def text (b : Bytes) : String := String.mk (b.map (fun x => Char.ofNat x.toNat))

/-- A stream that can be drained once: what it has yet to deliver, and
whether it has been closed. -/
structure DemoStream where
  pending : Bytes
  closed : Bool
  deriving DecidableEq, Repr

/-- The local name of the root element: the document opens with `<`, the
name runs to the first blank, `/` or `>`. -/
def demoRootName (body : Bytes) : Except String String :=
  match body with
  | 60 :: rest =>
    let name := rest.takeWhile (fun x => x != 32 && x != 47 && x != 62)
    if name.isEmpty then .error "XML syntax error: expected element name after <"
    else .ok (text name)
  | _ => .error "EOF"

/-- A typed decode that keeps the document text; a document holding `!`
does not fit the target shape. -/
def demoDecode (body : Bytes) : Except String String :=
  match demoRootName body with
  | .error e => .error e
  | .ok _ => if body.contains 33 then .error "invalid syntax" else .ok (text body)

/-- The structured error shape: root `api-error-response`, and the message
is the text that follows the root tag up to the next `<`. -/
def demoBraintreeError (body : Bytes) : Except String (String × Unit) :=
  match demoRootName body with
  | .error e => .error e
  | .ok name =>
    if name = "api-error-response" then
      .ok (text (((body.dropWhile (fun x => x != 62)).drop 1).takeWhile (fun x => x != 60)), ())
    else .error "expected element type <api-error-response>"

/-- A coding that stands for gzip: the two magic bytes `1f 8b`, then the
document back to front. -/
def demoGzip (d : Bytes) : Bytes := 31 :: 139 :: d.reverse

/-- The nil-stripping pass of the instance: empty input gives empty output,
any other input must open with `<`, and each byte `~`, which stands for a
nil-marked element, is removed. -/
def demoStrip (buf : Bytes) : Except String Bytes :=
  match buf with
  | [] => .ok []
  | 60 :: rest => .ok (60 :: rest.filter (fun x => x != 126))
  | _ => .error "xmlnil: not a document"

/-- Draining of the instance stream: fails once the stream is closed. -/
def demoReadAll (s : DemoStream) : Except String Bytes × DemoStream :=
  if s.closed then (.error "http: read on closed response body", s)
  else (.ok s.pending, { s with pending := [] })

/-- The lower-casing of runes in the instance: `unicode.ToLower` on ASCII and
on U+0130, the capital I with a dot above, whose lower case is `i`; every
other rune is left as it is. -/
def demoUnicodeToLower (c : Char) : Char :=
  if c.toNat = 304 then Char.ofNat 105 else asciiToLower c

/-- Draining of the instance stream through the decoder of `demoGzip`, which
puts the bytes read back in order. -/
def demoGunzip (s : DemoStream) : Except String Bytes × DemoStream :=
  match demoReadAll s with
  | (.ok b, s2) => (.ok b.reverse, s2)
  | (.error e, s2) => (.error e, s2)

/-- The instance of the collaborators. -/
def demo : Lib where
  Err := String
  Stream := DemoStream
  GzipReader := Unit
  MerchantAccount := String
  Transaction := String
  TransactionLineItems := String
  PaymentMethodNonce := String
  CreditCard := String
  PayPalAccount := String
  VenmoAccount := String
  AndroidPayCard := String
  ApplePayCard := String
  Customer := String
  Subscription := String
  SettlementBatchSummary := String
  Address := String
  AddOn := String
  Discount := String
  Dispute := String
  DisputeEvidence := String
  BraintreeErrorFields := Unit
  xmlName := demoRootName
  xmlMerchantAccount := demoDecode
  xmlTransaction := demoDecode
  xmlTransactionLineItems := demoDecode
  xmlPaymentMethodNonce := demoDecode
  xmlCreditCard := demoDecode
  xmlPayPalAccount := demoDecode
  xmlVenmoAccount := demoDecode
  xmlAndroidPayCard := demoDecode
  xmlApplePayCard := demoDecode
  xmlCustomer := demoDecode
  xmlSubscription := demoDecode
  xmlSettlementBatchSummary := demoDecode
  xmlAddress := demoDecode
  xmlAddOnList := fun body => (demoDecode body).map (fun d => [d])
  xmlDiscountList := fun body => (demoDecode body).map (fun d => [d])
  xmlDispute := demoDecode
  xmlDisputeEvidence := demoDecode
  xmlBraintreeError := demoBraintreeError
  unicodeToLower := demoUnicodeToLower
  strconvQuote := fun s => s
  gzipNewReader := fun s =>
    match s.pending with
    | 31 :: 139 :: rest => (.ok (), { s with pending := rest })
    | _ => (.error "gzip: invalid header", { s with pending := [] })
  gzipReadAll := fun _ s => demoGunzip s
  readAll := demoReadAll
  close := fun s => { s with closed := true }
  StripNilElements := demoStrip

/-- An envelope as the client builds it: status, headers, the stream, and no
canonical buffer yet. -/
def demoResponse (status : Int) (header : Header) (stream : Bytes) : Response demo :=
  { httpResponse :=
      { StatusCode := status, Header := header,
        Body := { state := { pending := stream, closed := false }, calls := [] } },
    Body := [] }

/-- An envelope whose canonical buffer is the given document. -/
def demoBody (status : Int) (doc : String) : Response demo :=
  { httpResponse :=
      { StatusCode := status, Header := [],
        Body := { state := { pending := [], closed := true }, calls := [] } },
    Body := ascii doc }

/-- An envelope with an empty body and no `Content-Encoding`, as a response
without content gives. -/
def emptyEnvelope : Response demo := demoResponse 200 [] []

/-- An envelope announced as gzip whose stream is a plain XML document. -/
def notGzipEnvelope : Response demo :=
  demoResponse 200 [("Content-Encoding", ["gzip"])] (ascii "<credit-card/>")

/-- The function `strconv.Quote` leaves a string of printable ASCII with no double quote
and no backslash as it is, between double quotes. -/
theorem quoteRune_plain (cs : List Char)
    (h : ∀ c ∈ cs, ¬ (c.toNat = 34 ∨ c.toNat = 92)) : cs.flatMap quoteRune = cs := by
  induction cs with
  | nil => rfl
  | cons c cs ih =>
    have hc : ¬ (c.toNat = 34 ∨ c.toNat = 92) := h c (List.mem_cons_self c cs)
    have ht : cs.flatMap quoteRune = cs := ih (fun x hx => h x (List.mem_cons_of_mem c hx))
    simp only [List.flatMap_cons, quoteRune, if_neg hc, ht, List.singleton_append]

/-- C1: when the sniffed root tag name is one of the five known payment-method
names, `paymentMethod` returns what the decoder of that type returns on the
same body: the pointer it produced, as a value of that variant, and the
error it returned. -/
theorem paymentMethod_dispatch (L : Lib) (r : Response L) :
    (entityName L r = ("credit-card", none) →
      paymentMethod L r = (some (.creditCard (creditCard L r).1), (creditCard L r).2)) ∧
    (entityName L r = ("paypal-account", none) →
      paymentMethod L r = (some (.paypalAccount (paypalAccount L r).1), (paypalAccount L r).2)) ∧
    (entityName L r = ("venmo-account", none) →
      paymentMethod L r = (some (.venmoAccount (venmoAccount L r).1), (venmoAccount L r).2)) ∧
    (entityName L r = ("android-pay-card", none) →
      paymentMethod L r =
        (some (.androidPayCard (androidPayCard L r).1), (androidPayCard L r).2)) ∧
    (entityName L r = ("apple-pay-card", none) →
      paymentMethod L r = (some (.applePayCard (applePayCard L r).1), (applePayCard L r).2)) := by
  refine ⟨?_, ?_, ?_, ?_, ?_⟩ <;> intro h <;> simp [paymentMethod, h]

/-- Witness of C1: the five tags on concrete documents, and a credit card
whose typed decode fails, where the decode error comes back unchanged. -/
theorem paymentMethod_dispatch_witness :
    paymentMethod demo (demoBody 200 "<credit-card><bin>411111</bin></credit-card>") =
      (some (.creditCard (some "<credit-card><bin>411111</bin></credit-card>")), none) ∧
    paymentMethod demo (demoBody 200 "<paypal-account><email>a@b.c</email></paypal-account>") =
      (some (.paypalAccount (some "<paypal-account><email>a@b.c</email></paypal-account>")),
        none) ∧
    paymentMethod demo (demoBody 200 "<venmo-account/>") =
      (some (.venmoAccount (some "<venmo-account/>")), none) ∧
    paymentMethod demo (demoBody 200 "<android-pay-card/>") =
      (some (.androidPayCard (some "<android-pay-card/>")), none) ∧
    paymentMethod demo (demoBody 200 "<apple-pay-card/>") =
      (some (.applePayCard (some "<apple-pay-card/>")), none) ∧
    creditCard demo (demoBody 200 "<credit-card><default>!</default></credit-card>") =
      (none, some (.lib "invalid syntax")) ∧
    paymentMethod demo (demoBody 200 "<credit-card><default>!</default></credit-card>") =
      (some (.creditCard none), some (.lib "invalid syntax")) :=
  ⟨(paymentMethod_dispatch demo _).1 rfl,
   (paymentMethod_dispatch demo _).2.1 rfl,
   (paymentMethod_dispatch demo _).2.2.1 rfl,
   (paymentMethod_dispatch demo _).2.2.2.1 rfl,
   (paymentMethod_dispatch demo _).2.2.2.2 rfl,
   rfl,
   (paymentMethod_dispatch demo _).1 rfl⟩

/-- C2: when the root tag name sniffs to a string that is none of the five
known names, `paymentMethod` returns the nil interface and the error of
`fmt.Errorf` whose message is `Unrecognized payment method ` followed by the
quoted name; for a name of printable ASCII with no double quote and no
backslash the quoted name is the name itself between double quotes. -/
theorem paymentMethod_unrecognized (L : Lib) (r : Response L) (name : String)
    (h : entityName L r = (name, none))
    (h1 : name ≠ "credit-card") (h2 : name ≠ "paypal-account")
    (h3 : name ≠ "venmo-account") (h4 : name ≠ "android-pay-card")
    (h5 : name ≠ "apple-pay-card") :
    paymentMethod L r =
      (none, some (.errorf ("Unrecognized payment method " ++ Quote L name))) ∧
    ((∀ c ∈ name.data, 32 ≤ c.toNat ∧ c.toNat ≤ 126 ∧ c.toNat ≠ 34 ∧ c.toNat ≠ 92) →
      Quote L name = String.mk ([Char.ofNat 34] ++ name.data ++ [Char.ofNat 34])) := by
  constructor
  · simp [paymentMethod, h, h1, h2, h3, h4, h5]
  · intro hp
    have hall : name.data.all (fun c => decide (32 ≤ c.toNat ∧ c.toNat ≤ 126)) = true := by
      rw [List.all_eq_true]
      intro c hc
      exact decide_eq_true ⟨(hp c hc).1, (hp c hc).2.1⟩
    have hplain : name.data.flatMap quoteRune = name.data :=
      quoteRune_plain name.data (fun c hc hq =>
        hq.elim (fun e => (hp c hc).2.2.1 e) (fun e => (hp c hc).2.2.2 e))
    simp only [Quote, hall, if_true, hplain]

/-- Witness of C2: a document whose root is `bank-account`. -/
theorem paymentMethod_unrecognized_witness :
    entityName demo (demoBody 200 "<bank-account><iban>x</iban></bank-account>") =
      ("bank-account", none) ∧
    paymentMethod demo (demoBody 200 "<bank-account><iban>x</iban></bank-account>") =
      (none, some (.errorf "Unrecognized payment method \"bank-account\"")) :=
  ⟨rfl,
   (paymentMethod_unrecognized demo
      (demoBody 200 "<bank-account><iban>x</iban></bank-account>") "bank-account" rfl
      (by decide) (by decide) (by decide) (by decide) (by decide)).1⟩

/-! ## Error classification -/

/-- C3: whatever the status code, a body that decodes as a `BraintreeError`
with a non-empty message makes `apiError` return that error, carrying the
message and the status code of the response. -/
theorem apiError_structured (L : Lib) (r : Response L) (msg : String)
    (fields : L.BraintreeErrorFields)
    (hd : L.xmlBraintreeError r.Body = .ok (msg, fields)) (hm : msg ≠ "") :
    apiError L r =
      some (.braintree { statusCode := r.StatusCode, ErrorMessage := msg, fields := fields }) := by
  simp [apiError, hd, hm]

/-- Witness of C3: a structured error body under status 200. -/
theorem apiError_structured_witness :
    (demoBody 200 "<api-error-response>Amount is required.</api-error-response>").StatusCode
      = 200 ∧
    apiError demo (demoBody 200 "<api-error-response>Amount is required.</api-error-response>")
      = some (.braintree
          { statusCode := 200, ErrorMessage := "Amount is required.", fields := () }) :=
  ⟨rfl,
   apiError_structured demo
     (demoBody 200 "<api-error-response>Amount is required.</api-error-response>")
     "Amount is required." () rfl (by decide)⟩

/-- C4: when the body yields no structured error (the decode fails, or gives
an empty message), `apiError` returns the bare HTTP error of the status code
exactly when the code is above 299 and nil otherwise, never the decode
error. The bare error reports the status code, and its text is the reason
phrase of the code followed by the code in parentheses; 404 reads
`Not Found (404)`. -/
theorem apiError_bare (L : Lib) (r : Response L)
    (hno : ∀ msg fields, L.xmlBraintreeError r.Body = .ok (msg, fields) → msg = "") :
    apiError L r = (if r.StatusCode > 299 then some (.httpError r.StatusCode) else none) ∧
    (∀ e, apiError L r ≠ some (.lib e)) ∧
    (r.StatusCode = 299 → apiError L r = none) ∧
    (r.StatusCode = 300 → apiError L r = some (.httpError 300)) ∧
    httpError.StatusCode r.StatusCode = r.StatusCode ∧
    httpError.Error r.StatusCode =
      StatusText r.StatusCode ++ " (" ++ formatInt r.StatusCode ++ ")" ∧
    httpError.Error 404 = "Not Found (404)" := by
  have key : apiError L r =
      (if r.StatusCode > 299 then some (.httpError r.StatusCode) else none) := by
    unfold apiError
    cases hx : L.xmlBraintreeError r.Body with
    | error e => rfl
    | ok p =>
      obtain ⟨msg, fields⟩ := p
      have : msg = "" := hno msg fields hx
      simp [this]
  refine ⟨key, ?_, ?_, ?_, rfl, rfl, by decide⟩
  · intro e
    rw [key]
    split <;> simp
  · intro h
    rw [key, h]
    rfl
  · intro h
    rw [key, h]
    rfl

/-- Witness of C4: an HTML error page under status 404, and an empty message
under status 299. -/
theorem apiError_bare_witness :
    apiError demo (demoBody 404 "<html><body>nothing here</body></html>") =
      some (.httpError 404) ∧
    apiError demo (demoBody 299 "<api-error-response></api-error-response>") = none :=
  ⟨(apiError_bare demo (demoBody 404 "<html><body>nothing here</body></html>")
      (by intro msg fields h; cases h)).1,
   (apiError_bare demo (demoBody 299 "<api-error-response></api-error-response>")
      (by
        intro msg fields h
        have h2 : (Except.ok ("", ()) : Except String (String × Unit)) = .ok (msg, fields) := h
        injection h2 with h3
        exact (congrArg Prod.fst h3).symm)).1⟩

/-! ## Body normalisation -/

/-- The canonical buffer `unpackBody` stores for a buffered body: the output
of the nil-stripping pass, or the buffer itself when the pass fails. -/
theorem unpackBody_ok (L : Lib) (r : Response L) (reader : Reader L) (body : ReadCloser L)
    (buf : Bytes) (s : L.Stream) (h0 : r.Body = [])
    (ho : openReader L r = (.ok reader, body))
    (hr : ReadAll L reader body.state = (.ok buf, s)) :
    unpackBody L r =
      (none,
        { httpResponse := { r.httpResponse with
            Body := { state := L.close s, calls := body.calls ++ [.readAll, .close] } },
          Body :=
            match L.StripNilElements buf with
            | .ok strippedBuf => strippedBuf
            | .error _ => buf }) := by
  simp [unpackBody, h0, ho, hr]

/-- A populated canonical buffer makes `unpackBody` return at once. -/
theorem unpackBody_populated (L : Lib) (r : Response L) (h : r.Body ≠ []) :
    unpackBody L r = (none, r) := by
  have hl : ¬ r.Body.length = 0 := fun hl => h (List.length_eq_zero.mp hl)
  simp [unpackBody, hl]

/-- Repeated calls on an envelope with a populated buffer change nothing. -/
theorem unpackBodyTimes_populated (L : Lib) (r : Response L) (h : r.Body ≠ []) (n : Nat) :
    unpackBodyTimes L n r = r := by
  induction n with
  | zero => rfl
  | succ n ih => simp [unpackBodyTimes, unpackBody_populated L r h, ih]

/-- The choice of reader when the header does not announce gzip. -/
theorem openReader_plain (L : Lib) (r : Response L)
    (h : ToLower L (r.httpResponse.Header.Get "Content-Encoding") ≠ "gzip") :
    openReader L r = (.ok .body, r.httpResponse.Body) := by
  simp [openReader, h]

/-- The choice of reader when the header announces gzip. -/
theorem openReader_gzip (L : Lib) (r : Response L)
    (h : ToLower L (r.httpResponse.Header.Get "Content-Encoding") = "gzip") :
    openReader L r =
      (match L.gzipNewReader r.httpResponse.Body.state with
       | (.error err, s) =>
         (.error err,
           { state := s, calls := r.httpResponse.Body.calls ++ [.gzipNewReader] })
       | (.ok gzipReader, s) =>
         (.ok (.gzip gzipReader),
           { state := s, calls := r.httpResponse.Body.calls ++ [.gzipNewReader] })) := by
  simp [openReader, h]

/-- The calls one run of `unpackBody` adds to the transport body. -/
theorem unpackBody_calls (L : Lib) (r : Response L) :
    (unpackBody L r).2.httpResponse.Body.calls = r.httpResponse.Body.calls ∨
    (unpackBody L r).2.httpResponse.Body.calls =
      r.httpResponse.Body.calls ++ [.gzipNewReader] ∨
    (unpackBody L r).2.httpResponse.Body.calls =
      r.httpResponse.Body.calls ++ [.readAll, .close] ∨
    (unpackBody L r).2.httpResponse.Body.calls =
      r.httpResponse.Body.calls ++ [.gzipNewReader, .readAll, .close] := by
  unfold unpackBody
  by_cases h0 : r.Body.length = 0
  · simp only [h0, if_true]
    by_cases hz : ToLower L (r.httpResponse.Header.Get "Content-Encoding") = "gzip"
    · rw [openReader_gzip L r hz]
      rcases hg : L.gzipNewReader r.httpResponse.Body.state with ⟨res, s⟩
      cases res with
      | error e => simp
      | ok g =>
        simp only []
        rcases hr : ReadAll L (.gzip g) s with ⟨res2, s2⟩
        cases res2 <;> simp
    · rw [openReader_plain L r hz]
      simp only []
      rcases hr : ReadAll L .body r.httpResponse.Body.state with ⟨res2, s2⟩
      cases res2 <;> simp
  · simp [h0]

/-- Every decode accessor reads the canonical buffer and nothing else. -/
theorem accessors_of_body (L : Lib) (a b : Response L) (h : a.Body = b.Body) :
    entityName L a = entityName L b ∧
    merchantAccount L a = merchantAccount L b ∧
    transaction L a = transaction L b ∧
    transactionLineItems L a = transactionLineItems L b ∧
    paymentMethod L a = paymentMethod L b ∧
    paymentMethodNonce L a = paymentMethodNonce L b ∧
    creditCard L a = creditCard L b ∧
    paypalAccount L a = paypalAccount L b ∧
    venmoAccount L a = venmoAccount L b ∧
    androidPayCard L a = androidPayCard L b ∧
    applePayCard L a = applePayCard L b ∧
    customer L a = customer L b ∧
    subscription L a = subscription L b ∧
    settlement L a = settlement L b ∧
    address L a = address L b ∧
    addOns L a = addOns L b ∧
    discounts L a = discounts L b ∧
    dispute L a = dispute L b ∧
    disputeEvidence L a = disputeEvidence L b := by
  simp only [entityName, merchantAccount, transaction, transactionLineItems, paymentMethod,
    paymentMethodNonce, creditCard, paypalAccount, venmoAccount, androidPayCard, applePayCard,
    customer, subscription, settlement, address, addOns, discounts, dispute, disputeEvidence,
    h, and_self]

/-- C5 at the failing input: on an envelope whose canonical buffer comes out
empty, the first call of `unpackBody` returns nil and leaves `Body` empty;
the second call does not return the cached buffer: it reads the consumed
stream again, closes it again and returns the read error, so two calls read
the stream twice. -/
theorem unpackBody_empty_rereads :
    (unpackBody demo emptyEnvelope).1 = none ∧
    (unpackBody demo emptyEnvelope).2.Body = [] ∧
    (unpackBody demo emptyEnvelope).2.httpResponse.Body.calls = [.readAll, .close] ∧
    (unpackBody demo (unpackBody demo emptyEnvelope).2).1 =
      some (.lib "http: read on closed response body") ∧
    (unpackBodyTimes demo 2 emptyEnvelope).httpResponse.Body.calls =
      [.readAll, .close, .readAll, .close] ∧
    ¬ ((unpackBodyTimes demo 2 emptyEnvelope).httpResponse.Body.calls.count .readAll ≤ 1) ∧
    ¬ ((unpackBodyTimes demo 2 emptyEnvelope).httpResponse.Body.calls.count .close ≤ 1) := by
  refine ⟨rfl, rfl, rfl, rfl, rfl, ?_, ?_⟩ <;> decide

/-- The path on which the memoisation works: when a call of `unpackBody`
leaves a non-empty `Body`, a further call returns nil and leaves the whole
envelope as it is, so any number of calls, one or more, leaves the envelope
the first call left: the same `Body`, and a transport stream that only the
first call has touched and has read at most once. -/
theorem unpackBody_memoized (L : Lib) (r : Response L)
    (h : (unpackBody L r).2.Body ≠ []) (n : Nat) :
    unpackBody L (unpackBody L r).2 = (none, (unpackBody L r).2) ∧
    unpackBodyTimes L (n + 1) r = (unpackBody L r).2 ∧
    (unpackBodyTimes L (n + 1) r).httpResponse.Body.calls.count .readAll ≤
      r.httpResponse.Body.calls.count .readAll + 1 := by
  have hfix : unpackBodyTimes L (n + 1) r = (unpackBody L r).2 := by
    show unpackBodyTimes L n (unpackBody L r).2 = (unpackBody L r).2
    exact unpackBodyTimes_populated L _ h n
  refine ⟨unpackBody_populated L _ h, hfix, ?_⟩
  rw [hfix]
  rcases unpackBody_calls L r with hc | hc | hc | hc <;> rw [hc] <;>
    simp [List.count_append, List.count_cons]

/-- Three calls on an envelope whose stream holds a document with one
nil-marked element leave what the first call left. -/
theorem unpackBody_memoized_witness :
    (unpackBody demo (demoResponse 200 [] (ascii "<a>~</a>"))).2.Body = ascii "<a></a>" ∧
    unpackBodyTimes demo 3 (demoResponse 200 [] (ascii "<a>~</a>")) =
      (unpackBody demo (demoResponse 200 [] (ascii "<a>~</a>"))).2 ∧
    (unpackBodyTimes demo 3 (demoResponse 200 [] (ascii "<a>~</a>"))).httpResponse.Body.calls
      = [.readAll, .close] :=
  ⟨rfl,
   (unpackBody_memoized demo (demoResponse 200 [] (ascii "<a>~</a>")) (by decide) 2).2.1,
   rfl⟩

/-- C6 at the failing input: when `gzip.NewReader` rejects the stream,
`unpackBody` returns its error with the transport stream never closed, while
the same document sent as announced, and a stream whose read fails, are
closed once. -/
theorem unpackBody_gzip_error_not_closed :
    (unpackBody demo notGzipEnvelope).1 = some (.lib "gzip: invalid header") ∧
    (unpackBody demo notGzipEnvelope).2.httpResponse.Body.calls = [.gzipNewReader] ∧
    (unpackBody demo notGzipEnvelope).2.httpResponse.Body.calls.count .close = 0 ∧
    (unpackBody demo notGzipEnvelope).2.httpResponse.Body.state.closed = false ∧
    (unpackBody demo
        (demoResponse 200 [("Content-Encoding", ["gzip"])]
          (demoGzip (ascii "<credit-card/>")))).2.httpResponse.Body.calls
      = [.gzipNewReader, .readAll, .close] ∧
    (unpackBody demo
        { httpResponse :=
            { StatusCode := 200, Header := [],
              Body := { state := { pending := [], closed := true }, calls := [] } },
          Body := [] })
      = (some (.lib "http: read on closed response body"),
          { httpResponse :=
              { StatusCode := 200, Header := [],
                Body := { state := { pending := [], closed := true },
                          calls := [.readAll, .close] } },
            Body := [] }) := by
  refine ⟨rfl, rfl, ?_, rfl, rfl, rfl⟩
  decide

/-- C7: for a buffered body on which `xmlnil.StripNilElements` fails,
`unpackBody` returns nil and sets `Body` to the buffer as read; when the pass
succeeds, `Body` is the output of the pass. -/
theorem unpackBody_strip_fallback (L : Lib) (r : Response L) (reader : Reader L)
    (body : ReadCloser L) (buf : Bytes) (s : L.Stream) (h0 : r.Body = [])
    (ho : openReader L r = (.ok reader, body))
    (hr : ReadAll L reader body.state = (.ok buf, s)) :
    (unpackBody L r).1 = none ∧
    (∀ e, L.StripNilElements buf = .error e → (unpackBody L r).2.Body = buf) ∧
    (∀ strippedBuf, L.StripNilElements buf = .ok strippedBuf →
      (unpackBody L r).2.Body = strippedBuf) := by
  rw [unpackBody_ok L r reader body buf s h0 ho hr]
  refine ⟨rfl, ?_, ?_⟩
  · intro e he
    simp [he]
  · intro b hb
    simp [hb]

/-- Witness of C7: a body that is not a document, on which the pass of the
instance fails, is kept as read. -/
theorem unpackBody_strip_fallback_witness :
    demo.StripNilElements (ascii "plain ~ text") = .error "xmlnil: not a document" ∧
    (unpackBody demo (demoResponse 200 [] (ascii "plain ~ text"))).1 = none ∧
    (unpackBody demo (demoResponse 200 [] (ascii "plain ~ text"))).2.Body =
      ascii "plain ~ text" :=
  ⟨rfl,
   (unpackBody_strip_fallback demo (demoResponse 200 [] (ascii "plain ~ text")) .body
      { state := { pending := ascii "plain ~ text", closed := false }, calls := [] }
      (ascii "plain ~ text") { pending := [], closed := false } rfl rfl rfl).1,
   (unpackBody_strip_fallback demo (demoResponse 200 [] (ascii "plain ~ text")) .body
      { state := { pending := ascii "plain ~ text", closed := false }, calls := [] }
      (ascii "plain ~ text") { pending := [], closed := false } rfl rfl rfl).2.1
      "xmlnil: not a document" rfl⟩

/-- On an all-ASCII string `strings.ToLower` is the byte-wise lower-casing,
whatever `unicode.ToLower` is. -/
theorem ToLower_ascii (L : Lib) (s : String)
    (h : s.data.all (fun c => decide (c.toNat < 128)) = true) :
    ToLower L s = String.mk (s.data.map asciiToLower) := by
  simp only [ToLower, h, if_true]

/-- C9: when the gzip reader over the stream of one envelope, announced as
gzip, yields the document `d`, and the stream of another envelope, with no
`Content-Encoding`, yields `d` directly, `unpackBody` succeeds on both with
the same canonical `Body`, and every decode accessor returns the same on the
two envelopes. -/
theorem unpackBody_gzip_roundtrip (L : Lib) (r1 r2 : Response L) (d : Bytes)
    (g : L.GzipReader) (s1 s1a s2 : L.Stream)
    (hb1 : r1.Body = []) (hb2 : r2.Body = [])
    (hz : ToLower L (r1.httpResponse.Header.Get "Content-Encoding") = "gzip")
    (hn : r2.httpResponse.Header.lookup "Content-Encoding" = none)
    (hg : L.gzipNewReader r1.httpResponse.Body.state = (.ok g, s1))
    (hgr : L.gzipReadAll g s1 = (.ok d, s1a))
    (hr : L.readAll r2.httpResponse.Body.state = (.ok d, s2)) :
    (unpackBody L r1).1 = none ∧ (unpackBody L r2).1 = none ∧
    (unpackBody L r1).2.Body = (unpackBody L r2).2.Body ∧
    entityName L (unpackBody L r1).2 = entityName L (unpackBody L r2).2 ∧
    merchantAccount L (unpackBody L r1).2 = merchantAccount L (unpackBody L r2).2 ∧
    transaction L (unpackBody L r1).2 = transaction L (unpackBody L r2).2 ∧
    transactionLineItems L (unpackBody L r1).2 = transactionLineItems L (unpackBody L r2).2 ∧
    paymentMethod L (unpackBody L r1).2 = paymentMethod L (unpackBody L r2).2 ∧
    paymentMethodNonce L (unpackBody L r1).2 = paymentMethodNonce L (unpackBody L r2).2 ∧
    creditCard L (unpackBody L r1).2 = creditCard L (unpackBody L r2).2 ∧
    paypalAccount L (unpackBody L r1).2 = paypalAccount L (unpackBody L r2).2 ∧
    venmoAccount L (unpackBody L r1).2 = venmoAccount L (unpackBody L r2).2 ∧
    androidPayCard L (unpackBody L r1).2 = androidPayCard L (unpackBody L r2).2 ∧
    applePayCard L (unpackBody L r1).2 = applePayCard L (unpackBody L r2).2 ∧
    customer L (unpackBody L r1).2 = customer L (unpackBody L r2).2 ∧
    subscription L (unpackBody L r1).2 = subscription L (unpackBody L r2).2 ∧
    settlement L (unpackBody L r1).2 = settlement L (unpackBody L r2).2 ∧
    address L (unpackBody L r1).2 = address L (unpackBody L r2).2 ∧
    addOns L (unpackBody L r1).2 = addOns L (unpackBody L r2).2 ∧
    discounts L (unpackBody L r1).2 = discounts L (unpackBody L r2).2 ∧
    dispute L (unpackBody L r1).2 = dispute L (unpackBody L r2).2 ∧
    disputeEvidence L (unpackBody L r1).2 = disputeEvidence L (unpackBody L r2).2 := by
  have ho1 : openReader L r1 =
      (.ok (.gzip g), { state := s1, calls := r1.httpResponse.Body.calls ++ [.gzipNewReader] }) := by
    rw [openReader_gzip L r1 hz, hg]
  have hplain : ToLower L (r2.httpResponse.Header.Get "Content-Encoding") ≠ "gzip" := by
    have hget : r2.httpResponse.Header.Get "Content-Encoding" = "" := by
      simp [Header.Get, hn]
    rw [hget, ToLower_ascii L "" (by decide)]
    decide
  have e1 := unpackBody_ok L r1 (.gzip g) _ d s1a hb1 ho1 hgr
  have e2 := unpackBody_ok L r2 .body _ d s2 hb2 (openReader_plain L r2 hplain) hr
  have hbody : (unpackBody L r1).2.Body = (unpackBody L r2).2.Body := by
    rw [e1, e2]
  refine ⟨by rw [e1], by rw [e2], hbody, accessors_of_body L _ _ hbody⟩

/-- Witness of C9: a credit card with a nil-marked element, framed as gzip
and sent plain. -/
theorem unpackBody_gzip_roundtrip_witness :
    (unpackBody demo
        (demoResponse 200 [("Content-Encoding", ["gzip"])]
          (demoGzip (ascii "<credit-card><cvv>~</cvv></credit-card>")))).2.Body =
      (unpackBody demo
        (demoResponse 200 [] (ascii "<credit-card><cvv>~</cvv></credit-card>"))).2.Body ∧
    paymentMethod demo
        (unpackBody demo
          (demoResponse 200 [("Content-Encoding", ["gzip"])]
            (demoGzip (ascii "<credit-card><cvv>~</cvv></credit-card>")))).2 =
      (some (.creditCard (some "<credit-card><cvv></cvv></credit-card>")), none) :=
  ⟨(unpackBody_gzip_roundtrip demo
      (demoResponse 200 [("Content-Encoding", ["gzip"])]
        (demoGzip (ascii "<credit-card><cvv>~</cvv></credit-card>")))
      (demoResponse 200 [] (ascii "<credit-card><cvv>~</cvv></credit-card>"))
      (ascii "<credit-card><cvv>~</cvv></credit-card>") ()
      { pending := (ascii "<credit-card><cvv>~</cvv></credit-card>").reverse, closed := false }
      { pending := [], closed := false } { pending := [], closed := false }
      rfl rfl (by decide) rfl rfl rfl rfl).2.2.1,
   rfl⟩

end Braintree
